import Mathlib

/-!
Verification of the NovaFilm job-completion / credit-accounting core.

Shallow embedding of:
- `server/storage.ts` (`DatabaseStorage`): job, video, credit and Stripe
  bookkeeping operations over a row store, modelled as pure functions on a
  `Storage` record;
- `server/routes.ts`: the `/api/create-job` submission flow, the
  `/api/veo-callback` webhook handler, the `startPolling` loop and the
  `/api/stripe/webhook` renewal branch;
- `server/services/kie.ts` (`KieAiService.parseCallback`).

Conventions: a drizzle `update ... set` ignores `undefined` fields, so an
optional argument of type `Option _` with value `none` leaves the stored
column untouched.  `db.transaction` bodies are modelled as a single atomic
state update.  JavaScript property access on `undefined` is modelled as an
`Except` error where the source can actually throw.
-/

namespace NovaFilm

/-- Job lifecycle status (`job_status` enum in `shared/schema.ts`). -/
inductive JobStatus
  | QUEUED
  | PROCESSING
  | READY
  | FAILED
deriving DecidableEq, Repr

/-- Terminal states per the spec glossary: `READY` or `FAILED`. -/
def JobStatus.isTerminal : JobStatus → Bool
  | .READY => true
  | .FAILED => true
  | _ => false

/-- A row of the `jobs` table (`shared/schema.ts`). -/
structure JobRec where
  id : String
  userId : String
  taskId : String
  status : JobStatus
  errorReason : Option String
deriving DecidableEq, Repr

/-- A row of the `videos` table (fields relevant to the reconciliation core). -/
structure VideoRec where
  userId : String
  taskId : String
  prompt : String
  providerVideoUrl : Option String
  resolution : Option String
  fallbackFlag : Bool
deriving DecidableEq, Repr

/-- A row of the `users` table (credit and plan fields). -/
structure UserRec where
  id : String
  creditsRemaining : Int
  stripeCustomerId : Option String
  activePlan : Option String
  creditsRenewAt : Option Nat
  stripeSubscriptionId : Option String
deriving DecidableEq, Repr

/-- A row of the `credits_ledger` table. -/
structure LedgerEntry where
  userId : String
  delta : Int
  reason : String
  jobId : Option String
deriving DecidableEq, Repr

/-- The row store backing `DatabaseStorage`: users, jobs, videos, the credit
ledger, and the two dedup tables (`stripe_events` and `processed_invoices`,
keyed by their external ids). -/
structure Storage where
  users : List UserRec
  jobs : List JobRec
  videos : List VideoRec
  ledger : List LedgerEntry
  stripeEvents : List String
  processedInvoices : List String
deriving DecidableEq, Repr

/-- `DatabaseStorage.getJob`: select the job with the given task id. -/
def getJob (st : Storage) (taskId : String) : Option JobRec :=
  st.jobs.find? (fun j => j.taskId == taskId)

/-- `DatabaseStorage.getVideoByTaskId`. -/
def getVideoByTaskId (st : Storage) (taskId : String) : Option VideoRec :=
  st.videos.find? (fun v => v.taskId == taskId)

/-- `DatabaseStorage.updateJobStatus` (storage.ts lines 94-99): an
unconditional `update jobs set status, error_reason where task_id = _`.
There is no terminal-state guard in this method.  When `errorReason` is
`none` (the TypeScript caller passed `undefined`) drizzle omits the column
from the `set`, leaving the stored value untouched. -/
def updateJobStatus (st : Storage) (taskId : String) (status : JobStatus)
    (errorReason : Option String) : Storage :=
  { st with jobs := st.jobs.map fun j =>
      if j.taskId == taskId then
        { j with status := status,
                 errorReason := match errorReason with
                   | some e => some e
                   | none => j.errorReason }
      else j }

/-- `DatabaseStorage.updateJobTaskId` (storage.ts lines 101-106). -/
def updateJobTaskId (st : Storage) (oldTaskId newTaskId : String) : Storage :=
  { st with jobs := st.jobs.map fun j =>
      if j.taskId == oldTaskId then { j with taskId := newTaskId } else j }

/-- `DatabaseStorage.updateVideoTaskId` (storage.ts lines 129-134). -/
def updateVideoTaskId (st : Storage) (oldTaskId newTaskId : String) : Storage :=
  { st with videos := st.videos.map fun v =>
      if v.taskId == oldTaskId then { v with taskId := newTaskId } else v }

/-- `DatabaseStorage.createJob`: insert a job row. -/
def createJob (st : Storage) (j : JobRec) : Storage :=
  { st with jobs := st.jobs ++ [j] }

/-- `DatabaseStorage.createVideo`: insert a video row. -/
def createVideo (st : Storage) (v : VideoRec) : Storage :=
  { st with videos := st.videos ++ [v] }

/-- The `Partial<InsertVideo>` argument of `DatabaseStorage.updateVideo`:
`none` fields were `undefined` and are omitted from the drizzle `set`. -/
structure VideoUpdates where
  providerVideoUrl : Option String := none
  resolution : Option String := none
  fallbackFlag : Option Bool := none
deriving DecidableEq, Repr

/-- `DatabaseStorage.updateVideo` (storage.ts lines 122-127). -/
def updateVideo (st : Storage) (taskId : String) (u : VideoUpdates) : Storage :=
  { st with videos := st.videos.map fun v =>
      if v.taskId == taskId then
        { v with
          providerVideoUrl := match u.providerVideoUrl with
            | some x => some x
            | none => v.providerVideoUrl,
          resolution := match u.resolution with
            | some x => some x
            | none => v.resolution,
          fallbackFlag := match u.fallbackFlag with
            | some b => b
            | none => v.fallbackFlag }
      else v }

/-- `DatabaseStorage.getUserCreditsBalance` (storage.ts lines 255-262):
the cached balance, `0` when the user row is absent. -/
def getUserCreditsBalance (st : Storage) (userId : String) : Int :=
  ((st.users.find? (fun u => u.id == userId)).map (fun u => u.creditsRemaining)).getD 0

/-- `DatabaseStorage.consumeCredits` (storage.ts lines 192-224): inside one
transaction, read the user's balance under a row lock; if the row is missing
or holds fewer than 1 credit, change nothing and return `false`; otherwise
decrement by one, append the `video_generation` ledger entry with the
related job id, and return `true`. -/
def consumeCredits (st : Storage) (userId jobId : String) : Storage × Bool :=
  match st.users.find? (fun u => u.id == userId) with
  | none => (st, false)
  | some u =>
    if u.creditsRemaining < 1 then (st, false)
    else
      ({ st with
          users := st.users.map fun v =>
            if v.id == userId then { v with creditsRemaining := u.creditsRemaining - 1 } else v,
          ledger := st.ledger ++ [⟨userId, -1, "video_generation", some jobId⟩] },
       true)

/-- `DatabaseStorage.refundCredits` (storage.ts lines 226-253): silently
return when the user row is missing, else increment by one and append a
`refund` ledger entry. -/
def refundCredits (st : Storage) (userId jobId : String) : Storage :=
  match st.users.find? (fun u => u.id == userId) with
  | none => st
  | some u =>
    { st with
      users := st.users.map fun v =>
        if v.id == userId then { v with creditsRemaining := u.creditsRemaining + 1 } else v,
      ledger := st.ledger ++ [⟨userId, 1, "refund", some jobId⟩] }

/-- `DatabaseStorage.addWelcomeCredits` (storage.ts lines 172-190): inside
one transaction, `set creditsRemaining := credits` — the balance is
OVERWRITTEN with the granted amount, not incremented — and a `promo` ledger
entry of `credits` is appended. -/
def addWelcomeCredits (st : Storage) (userId : String) (credits : Int) : Storage :=
  { st with
    users := st.users.map fun v =>
      if v.id == userId then { v with creditsRemaining := credits } else v,
    ledger := st.ledger ++ [⟨userId, credits, "promo", none⟩] }

/-- `DatabaseStorage.addSubscriptionCredits` (storage.ts lines 321-347):
read the current balance, silently return when the user row is missing,
else increment by `credits` and append a `subscription_payment` ledger
entry.  (The `planKey` argument is unused by the source body.) -/
def addSubscriptionCredits (st : Storage) (userId : String) (credits : Int) : Storage :=
  match st.users.find? (fun u => u.id == userId) with
  | none => st
  | some u =>
    { st with
      users := st.users.map fun v =>
        if v.id == userId then { v with creditsRemaining := u.creditsRemaining + credits } else v,
      ledger := st.ledger ++ [⟨userId, credits, "subscription_payment", none⟩] }

/-- `DatabaseStorage.getStripeEvent`, reduced to existence of the row. -/
def getStripeEvent (st : Storage) (eventId : String) : Bool :=
  st.stripeEvents.contains eventId

/-- `DatabaseStorage.createStripeEvent`: record a processed event id. -/
def createStripeEvent (st : Storage) (eventId : String) : Storage :=
  { st with stripeEvents := st.stripeEvents ++ [eventId] }

/-- Modelled from the spec: `storage.getProcessedInvoice` and the
`processed_invoices` table are not present under `src/` (only their caller
in the Stripe webhook handler is).  Spec section 3, "Processed Invoice
record (dedup table)": key is the external invoice id; existence implies
credits for that invoice were already granted. -/
def getProcessedInvoice (st : Storage) (invoiceId : String) : Bool :=
  st.processedInvoices.contains invoiceId

/-- Sum of all ledger deltas recorded for a user — the spec's source of
truth for the balance (spec section 3, Credit Ledger Entry invariant). -/
def ledgerSum (st : Storage) (userId : String) : Int :=
  ((st.ledger.filter (fun e => e.userId == userId)).map (fun e => e.delta)).sum

/-- The spec's ledger invariant: the denormalized `creditsRemaining` equals
the sum of the user's ledger deltas. -/
abbrev balanceMatchesLedger (st : Storage) (userId : String) : Prop :=
  getUserCreditsBalance st userId = ledgerSum st userId

/-! ### KieAiService.parseCallback (services/kie.ts lines 112-125) -/

/-- JavaScript `x || d` on an optional string: `undefined`, `null` and the
empty string are falsy and yield the default. -/
def jsOrString (x : Option String) (d : String) : String :=
  match x with
  | some s => if s == "" then d else s
  | none => d

/-- The `info` object of a raw provider callback; each field may be absent. -/
structure RawInfo where
  resultUrls : Option (List String)
  resolution : Option String
deriving DecidableEq, Repr

/-- The `data` object of a raw provider callback. -/
structure RawData where
  taskId : Option String
  info : Option RawInfo
  fallbackFlag : Option Bool
deriving DecidableEq, Repr

/-- A raw provider callback payload (`req.body` of `/api/veo-callback`). -/
structure RawCallback where
  code : Option Nat
  msg : Option String
  data : Option RawData
deriving DecidableEq, Repr

/-- Normalized `info` produced by `parseCallback`. -/
structure CallbackInfo where
  resultUrls : List String
  resolution : String
deriving DecidableEq, Repr

/-- Normalized `data` produced by `parseCallback`.  `taskId` stays optional:
the source copies `callbackData.data.taskId` without checking it, so an
absent task id flows through as `undefined`. -/
structure CallbackData where
  taskId : Option String
  info : CallbackInfo
  fallbackFlag : Bool
deriving DecidableEq, Repr

/-- The `KieCallbackData` value returned by `parseCallback`. -/
structure ParsedCallback where
  code : Option Nat
  msg : Option String
  data : CallbackData
deriving DecidableEq, Repr

/-- `KieAiService.parseCallback` (kie.ts lines 112-125).  The body reads
`callbackData.data.taskId` and `callbackData.data.info.resultUrls`, so a
payload without a `data` object, or whose `data` lacks an `info` object,
raises a `TypeError` (modelled as `Except.error`).  Fields inside `info`,
`fallbackFlag`, `msg`, `code` — and `taskId` itself — may be absent without
throwing; `resultUrls` defaults to `[]`, `resolution` to `"1080p"` (via
JavaScript `||`, so an empty string also defaults) and `fallbackFlag` to
`false`. -/
def parseCallback (cb : RawCallback) : Except String ParsedCallback :=
  match cb.data with
  | none => .error "TypeError: cannot read properties of undefined (reading taskId)"
  | some d =>
    match d.info with
    | none => .error "TypeError: cannot read properties of undefined (reading resultUrls)"
    | some i =>
      .ok { code := cb.code
            msg := cb.msg
            data :=
              { taskId := d.taskId
                info :=
                  { resultUrls := match i.resultUrls with
                      | some urls => urls
                      | none => []
                    resolution := jsOrString i.resolution "1080p" }
                fallbackFlag := d.fallbackFlag.getD false } }

/-! ### The polling loop (routes.ts lines 29-134, `startPolling`/`poll`) -/

/-- The fixed reschedule delay: `setTimeout(poll, 20000)`. -/
def pollDelayMs : Nat := 20000

/-- The attempt ceiling: `if (pollingInfo.attempts >= 30)`. -/
def maxPollAttempts : Nat := 30

/-- `errorMessage.length > 1000 ? errorMessage.substring(0, 1000) +
'...[truncated]' : errorMessage` (routes.ts line 112). -/
def truncate1000 (m : String) : String :=
  if m.length > 1000 then (m.take 1000) ++ "...[truncated]" else m

/-- Outcome of one `kieService.getRecordInfo` call as observed by a polling
tick: a response carrying `data.info.resultUrls` (possibly empty) or a
thrown error (network failure, non-ok status, ...). -/
inductive FetchOutcome
  | success (resultUrls : List String) (resolution : Option String) (fallbackFlag : Option Bool)
  | fetchError (msg : String)
deriving DecidableEq, Repr

/-- The in-memory polling controller entry for one task id:
`pollingControllers` holds `{ controller, attempts }`; `active` is false
once the entry is deleted or its `AbortController` aborted. -/
structure PollCtl where
  active : Bool
  attempts : Nat
  scheduled : List Nat
deriving DecidableEq, Repr

/-- One execution of `poll` (routes.ts lines 42-130) for `taskId`, given
the outcome of this tick's `getRecordInfo` call.  Mirrors the source order:
bail out if the controller is gone or aborted; increment `attempts`; stop
if the job is missing or already terminal; on result URLs update the video
and set `READY`; at the attempt ceiling set `FAILED`; otherwise reschedule
after `pollDelayMs`.  A thrown error below the ceiling also reschedules. -/
def pollTick (taskId : String) (fetch : FetchOutcome) (st : Storage) (pc : PollCtl) :
    Storage × PollCtl :=
  if !pc.active then (st, pc)
  else
    let pc := { pc with attempts := pc.attempts + 1 }
    match getJob st taskId with
    | none => (st, { pc with active := false })
    | some j =>
      if j.status.isTerminal then (st, { pc with active := false })
      else
        match fetch with
        | .success resultUrls resolution fallbackFlag =>
          match resultUrls with
          | url :: _ =>
            let st := updateVideo st taskId
              { providerVideoUrl := some url
                resolution := some (jsOrString resolution "1080p")
                fallbackFlag := some (fallbackFlag.getD false) }
            (updateJobStatus st taskId .READY none, { pc with active := false })
          | [] =>
            if pc.attempts ≥ maxPollAttempts then
              (updateJobStatus st taskId .FAILED
                 (some "Polling timeout - video generation took too long"),
               { pc with active := false })
            else (st, { pc with scheduled := pc.scheduled ++ [pollDelayMs] })
        | .fetchError m =>
          if pc.attempts ≥ maxPollAttempts then
            (updateJobStatus st taskId .FAILED (some (truncate1000 m)),
             { pc with active := false })
          else (st, { pc with scheduled := pc.scheduled ++ [pollDelayMs] })

/-- `startPolling` registers a fresh controller with `attempts = 0` and
schedules the first tick after `pollDelayMs` (routes.ts lines 39-40, 133). -/
def startPollingCtl : PollCtl :=
  { active := true, attempts := 0, scheduled := [pollDelayMs] }

/-- Run the self-rescheduling loop: execute ticks (the tick for attempt `n`
sees fetch outcome `fetches n`) until the controller is deactivated, bounded
by `fuel`. -/
def runPoll (taskId : String) (fetches : Nat → FetchOutcome) :
    Nat → Storage → PollCtl → Storage × PollCtl
  | 0, st, pc => (st, pc)
  | fuel + 1, st, pc =>
    if pc.active then
      let (st, pc) := pollTick taskId (fetches pc.attempts) st pc
      runPoll taskId fetches fuel st pc
    else (st, pc)

/-! ### The submission flow, POST /api/create-job (routes.ts lines 241-373) -/

/-- The observable state after line 327 (`updateJobTaskId` awaited) and
before line 328 (`updateVideoTaskId` not yet executed): only the Job row
has been rekeyed. -/
def rekeyIntermediate (st : Storage) (oldTaskId newTaskId : String) : Storage :=
  updateJobTaskId st oldTaskId newTaskId

/-- The completed rekey pair (routes.ts lines 327-328): two sequential
`await`ed updates, Job first, then Video. -/
def rekeyJobVideo (st : Storage) (oldTaskId newTaskId : String) : Storage :=
  updateVideoTaskId (rekeyIntermediate st oldTaskId newTaskId) oldTaskId newTaskId

/-- Outcome of the `kieService.generateVideo` call: the provider-assigned
task id, or a thrown error message. -/
inductive ProviderOutcome
  | ok (kieTaskId : String)
  | failed (errorMessage : String)
deriving DecidableEq, Repr

/-- The happy-path body of POST /api/create-job after validation (routes.ts
lines 277-362): create the Job (`QUEUED`, placeholder task id), consume one
credit (on failure mark the Job `FAILED` with `insufficient_credits` and
answer 400 without calling the provider), create the Video, call the
provider; on provider failure mark the Job `FAILED` with the provider error
message — no refund is issued — and answer 500; on success rekey Job and
Video to the provider task id, set `PROCESSING`, and answer 200. -/
def createJobFlow (st : Storage) (userId taskId prompt newJobId : String)
    (provider : ProviderOutcome) : Storage × Nat :=
  let st0 := createJob st
    { id := newJobId, userId := userId, taskId := taskId, status := .QUEUED, errorReason := none }
  let r := consumeCredits st0 userId newJobId
  if !r.2 then
    (updateJobStatus r.1 taskId .FAILED (some "insufficient_credits"), 400)
  else
    let st1 := createVideo r.1
      { userId := userId, taskId := taskId, prompt := prompt,
        providerVideoUrl := none, resolution := none, fallbackFlag := false }
    match provider with
    | .failed errorMessage =>
      (updateJobStatus st1 taskId .FAILED (some errorMessage), 500)
    | .ok kieTaskId =>
      (updateJobStatus (rekeyJobVideo st1 taskId kieTaskId.trim) kieTaskId.trim
        .PROCESSING none, 200)

/-! ### The webhook handler, POST /api/veo-callback (routes.ts 376-471) -/

/-- Result of one invocation of the veo-callback endpoint: the storage
afterwards, whether the polling controller for the task id survives, and
the HTTP status sent to the provider. -/
structure VeoCallbackResult where
  st : Storage
  pollingActive : Bool
  httpStatus : Nat
deriving DecidableEq, Repr

/-- The veo-callback body once a Job with status `jobStatus` is at hand
(routes.ts lines 411-464): if the job is not already `READY`, write `READY`
(success code) or `FAILED` with the callback message, and abort the polling
controller; then, on a success code, either apply the artifact URLs to the
Video record (the inner `videoError` catch is swallowed, modelled by
`updateVideoFails`) or — when the success callback carries no URLs — mark
the job `FAILED`; finally respond 200. -/
def veoCallbackWithJob (cb : ParsedCallback) (taskId : String) (updateVideoFails : Bool)
    (st : Storage) (jobStatus : JobStatus) (pollingActive : Bool) : VeoCallbackResult :=
  let stPoll :=
    if jobStatus != .READY then
      let st :=
        if cb.code == some 200 then updateJobStatus st taskId .READY none
        else updateJobStatus st taskId .FAILED cb.msg
      (st, false)
    else (st, pollingActive)
  let st2 :=
    match cb.code == some 200, cb.data.info.resultUrls with
    | true, url :: _ =>
      if updateVideoFails then stPoll.1
      else updateVideo stPoll.1 taskId
        { providerVideoUrl := some url
          resolution := some cb.data.info.resolution
          fallbackFlag := some cb.data.fallbackFlag }
    | true, [] =>
      updateJobStatus stPoll.1 taskId .FAILED (some "No result URLs provided in callback")
    | false, _ => stPoll.1
  ⟨st2, stPoll.2, 200⟩

/-- POST /api/veo-callback (routes.ts lines 376-471).  `pollingActive` is
the state of the task's polling controller; `createFails` models the
`createError` catch for the unknown-task fallback insert (line 405);
`thrownMidway` models any other rejection of an awaited storage call, which
the outer catch (lines 467-470) turns into a 200; a payload whose parse
throws, or whose task id is absent (making `taskId.trim()` throw), also
lands in that catch.  Every branch of the source responds with HTTP 200. -/
def veoCallbackHandler (raw : RawCallback)
    (createFails thrownMidway updateVideoFails : Bool)
    (st : Storage) (pollingActive : Bool) : VeoCallbackResult :=
  match parseCallback raw with
  | .error _ => ⟨st, pollingActive, 200⟩
  | .ok cb =>
    match cb.data.taskId with
    | none => ⟨st, pollingActive, 200⟩
    | some rawTaskId =>
      if thrownMidway then ⟨st, pollingActive, 200⟩
      else
        match getJob st rawTaskId.trim with
        | some job =>
          veoCallbackWithJob cb rawTaskId.trim updateVideoFails st job.status pollingActive
        | none =>
          if createFails then ⟨st, pollingActive, 200⟩
          else
            veoCallbackWithJob cb rawTaskId.trim updateVideoFails
              (createJob st
                { id := "generated", userId := "unknown", taskId := rawTaskId.trim,
                  status := .READY, errorReason := none })
              .READY pollingActive

/-! ### The Stripe webhook, invoice.payment_succeeded branch
(routes.ts lines 1386-1726, in particular 1499-1668) -/

/-- An inbound `invoice.payment_succeeded` event after signature
verification, with the billing context already extracted by
`getStripeBillingContext`. -/
structure StripeEventIn where
  id : String
  invoiceId : String
  billingReason : String
  amountPaid : Int
  customerId : Option String
  priceId : Option String
  subscriptionId : Option String
  periodEnd : Option Nat
deriving DecidableEq, Repr

/-- Plan matching by price id (routes.ts lines 1573-1585), tried in the
source order basic, pro, max against the configured price ids. -/
def matchPlan (envBasic envPro envMax priceId : String) : Option (String × Int) :=
  if priceId == envBasic then some ("basic", 5)
  else if priceId == envPro then some ("pro", 12)
  else if priceId == envMax then some ("max", 30)
  else none

/-- The atomic credit-grant transaction (routes.ts lines 1619-1658): in one
`db.transaction`, mark the invoice processed, set the user's balance to the
freshly read balance plus `credits` together with the plan, renewal date
and subscription id, append the `stripe_<plan>_renewal` ledger entry, and
record the event as processed. -/
def applyRenewalGrant (st : Storage) (userId : String) (credits : Int) (plan : String)
    (renewAt : Nat) (subscriptionId : Option String) (invoiceId eventId : String) : Storage :=
  { st with
    processedInvoices := st.processedInvoices ++ [invoiceId],
    users := st.users.map fun u =>
      if u.id == userId then
        { u with
          creditsRemaining :=
            ((st.users.find? (fun v => v.id == userId)).map
              (fun v => v.creditsRemaining)).getD 0 + credits,
          activePlan := some plan,
          creditsRenewAt := some renewAt,
          stripeSubscriptionId := subscriptionId }
      else u,
    ledger := st.ledger ++ [⟨userId, credits, "stripe_" ++ plan ++ "_renewal", none⟩],
    stripeEvents := st.stripeEvents ++ [eventId] }

/-- The Stripe webhook path taken by an `invoice.payment_succeeded` event
(routes.ts lines 1499-1509 and 1531-1668): event-id dedup first; skip (and
record the event) when the billing reason is not a subscription payment or
the amount is not positive; invoice-id dedup next; skip when customer or
price id is missing, the price id matches no plan, or no local user has the
customer id; otherwise run the atomic grant transaction.  `now` stands for
`new Date()`; `grantTxFails` models a rejected grant transaction, which
leaves every record unchanged and answers 500. -/
def stripeInvoicePaymentSucceeded (envBasic envPro envMax : String) (now : Nat)
    (grantTxFails : Bool) (e : StripeEventIn) (st : Storage) : Storage × Nat :=
  if getStripeEvent st e.id then (st, 200)
  else if ¬(e.billingReason = "subscription_create" ∨ e.billingReason = "subscription_cycle")
          ∨ e.amountPaid ≤ 0 then
    (createStripeEvent st e.id, 200)
  else if getProcessedInvoice st e.invoiceId then (createStripeEvent st e.id, 200)
  else
    match e.customerId, e.priceId with
    | some customerId, some priceId =>
      match matchPlan envBasic envPro envMax priceId with
      | none => (createStripeEvent st e.id, 200)
      | some (plan, credits) =>
        match st.users.find? (fun u => u.stripeCustomerId == some customerId) with
        | none => (createStripeEvent st e.id, 200)
        | some user =>
          let renewAt := match e.periodEnd with
            | some p => p * 1000
            | none => now
          if grantTxFails then (st, 500)
          else
            (applyRenewalGrant st user.id credits plan renewAt e.subscriptionId
               e.invoiceId e.id, 200)
    | _, _ => (createStripeEvent st e.id, 200)

/-! ### The completion race: webhook handler vs. polling tick

Both paths act on the shared Job row through separate read and write steps
(routes.ts: the webhook reads the job at line 390, performs its guarded
write at lines 412-427 and a SECOND, unguarded write at lines 448-451; a
polling tick reads at lines 52-57 and writes at lines 70-128).  The model
below interleaves one webhook invocation with one polling tick at step
granularity: each path first observes the job status, then performs its
conditional writes in program order; no read-then-write pair is atomic in
the source. -/

/-- Scheduler labels: the webhook's read, its guarded write (routes.ts
412-427) and its unguarded no-URLs write (routes.ts 448-451), and the poll
tick's read and write. -/
inductive RaceLabel
  | wRead
  | wWrite
  | wWrite2
  | pRead
  | pWrite
deriving DecidableEq, Repr

/-- Shared job status plus each path's program position: `wObs`/`pObs` hold
the status each path observed at its read step; `wDone1` records that the
webhook's guarded write site has executed (written or skipped);
`wWroteFrom` holds, once that site wrote, the observation under which it
wrote; `wWrote2` records, once the unguarded site (routes.ts 448-451) has
executed, whether it performed its `FAILED` write; `pWroteFrom` plays the
role of `wWroteFrom` for the polling tick.  `terminalTransitions` counts
the writes that changed the status to a terminal value. -/
structure RaceConfig where
  status : JobStatus
  errorReason : Option String
  pollActive : Bool
  wObs : Option JobStatus
  wDone1 : Bool
  wWroteFrom : Option JobStatus
  wWrote2 : Option Bool
  pObs : Option JobStatus
  pWroteFrom : Option JobStatus
  terminalTransitions : Nat
deriving DecidableEq, Repr

/-- Perform a status write on the shared job row (the race-model image of
`updateJobStatus`), counting transitions into a terminal state. -/
def raceWrite (c : RaceConfig) (s : JobStatus) (e : Option String) : RaceConfig :=
  { c with
    status := s,
    errorReason := match e with
      | some m => some m
      | none => c.errorReason,
    terminalTransitions :=
      c.terminalTransitions + (if s.isTerminal && s != c.status then 1 else 0) }

/-- One scheduler step of the race.  `cbCode`/`cbMsg`/`cbUrls` are the
webhook callback's fields after parsing (`cbUrls` is `data.info.resultUrls`,
defaulted to `[]`); `fetch` is the poll tick's `getRecordInfo` outcome and
`attempts` the tick's attempt counter after its increment.  The webhook's
guarded write (routes.ts 412-427) fires only under observation `!= READY`
and aborts the polling controller; its second write site (routes.ts
448-451) runs afterwards and, for a code-200 callback with empty result
URLs, writes `FAILED` REGARDLESS of the observed status and WITHOUT
aborting the poller (for a code-200 callback with URLs it updates the
Video only, no status write).  The poll write (routes.ts 70-128) fires
only under a non-terminal observation — the abort signal is NOT re-checked
before the write, exactly as in the source, whose tick checks the signal
only at its start. -/
def raceStep (cbCode : Nat) (cbMsg : Option String) (cbUrls : List String)
    (fetch : FetchOutcome) (attempts : Nat)
    (c : RaceConfig) (l : RaceLabel) : RaceConfig :=
  match l with
  | .wRead =>
    if c.wObs.isNone then { c with wObs := some c.status } else c
  | .wWrite =>
    match c.wObs with
    | none => c
    | some s =>
      if c.wDone1 then c
      else if s != .READY then
        let c :=
          if cbCode == 200 then raceWrite c .READY none
          else raceWrite c .FAILED cbMsg
        { c with wDone1 := true, wWroteFrom := some s, pollActive := false }
      else { c with wDone1 := true }
  | .wWrite2 =>
    if c.wDone1 && c.wWrote2.isNone then
      if cbCode == 200 && cbUrls.isEmpty then
        { raceWrite c .FAILED (some "No result URLs provided in callback") with
          wWrote2 := some true }
      else { c with wWrote2 := some false }
    else c
  | .pRead =>
    if c.pollActive && c.pObs.isNone then { c with pObs := some c.status } else c
  | .pWrite =>
    match c.pObs with
    | none => c
    | some s =>
      if c.pWroteFrom.isSome then c
      else if s.isTerminal then c
      else
        match fetch with
        | .success resultUrls _ _ =>
          match resultUrls with
          | _ :: _ => { raceWrite c .READY none with pWroteFrom := some s, pollActive := false }
          | [] =>
            if attempts ≥ maxPollAttempts then
              { raceWrite c .FAILED
                  (some "Polling timeout - video generation took too long") with
                pWroteFrom := some s, pollActive := false }
            else c
        | .fetchError m =>
          if attempts ≥ maxPollAttempts then
            { raceWrite c .FAILED (some (truncate1000 m)) with
              pWroteFrom := some s, pollActive := false }
          else c

/-- Run the race under a schedule: an arbitrary interleaving of the two
paths' read and write steps. -/
def runRace (cbCode : Nat) (cbMsg : Option String) (cbUrls : List String)
    (fetch : FetchOutcome) (attempts : Nat)
    (sched : List RaceLabel) (c : RaceConfig) : RaceConfig :=
  sched.foldl (raceStep cbCode cbMsg cbUrls fetch attempts) c

/-- A job freshly in `PROCESSING`, neither path started yet. -/
def raceInit : RaceConfig :=
  { status := .PROCESSING, errorReason := none, pollActive := true,
    wObs := none, wDone1 := false, wWroteFrom := none, wWrote2 := none,
    pObs := none, pWroteFrom := none, terminalTransitions := 0 }

/-- The write discipline the source actually implements, for a callback
with code `cbCode` and result URLs `cbUrls`: the webhook's guarded write
happened only under an observation other than `READY`; its second write
site wrote only because the callback was a code-200 success carrying no
result URLs (that write is unconditional on the observed status); and any
status write by the polling tick happened under a non-terminal
observation. -/
def RaceWriteInv (cbCode : Nat) (cbUrls : List String) (c : RaceConfig) : Prop :=
  (∀ s, c.wWroteFrom = some s → s ≠ .READY) ∧
  (c.wWrote2 = some true → cbCode = 200 ∧ cbUrls = []) ∧
  (∀ s, c.pWroteFrom = some s → s.isTerminal = false)

/-- Sequential composition of `consumeCredits` calls for one user: the
`for('update')` row lock on the user's balance serializes concurrent debit
transactions, so an arbitrary set of concurrent calls executes as some
sequence.  Returns the final storage and the number of successful debits. -/
def consumeN (st : Storage) (userId : String) : List String → Storage × Nat
  | [] => (st, 0)
  | jobId :: rest =>
    let r := consumeCredits st userId jobId
    let r2 := consumeN r.1 userId rest
    (r2.1, (if r.2 then 1 else 0) + r2.2)

/-! ### List helper lemmas for keyed row updates -/

/-- Updating the rows matching a key commutes with looking the key up, when
the update preserves the key. -/
theorem find?_map_update {α : Type} (key : α → String) (f : α → α) (k : String)
    (hf : ∀ a, key (f a) = key a) :
    ∀ l : List α,
      (l.map (fun a => if key a == k then f a else a)).find? (fun a => key a == k)
        = (l.find? (fun a => key a == k)).map f := by
  intro l
  induction l with
  | nil => rfl
  | cons h t ih =>
    by_cases hk : (key h == k) = true
    · have hfk : (key (f h) == k) = true := by rw [hf]; exact hk
      have hL : (List.map (fun a => if key a == k then f a else a) (h :: t)).find?
          (fun a => key a == k) = some (f h) := by
        rw [List.map_cons, if_pos hk]
        exact List.find?_cons_of_pos _ hfk
      have hR : (h :: t).find? (fun a => key a == k) = some h :=
        List.find?_cons_of_pos _ hk
      rw [hL, hR]; rfl
    · have hL : (List.map (fun a => if key a == k then f a else a) (h :: t)).find?
          (fun a => key a == k)
          = (List.map (fun a => if key a == k then f a else a) t).find?
              (fun a => key a == k) := by
        rw [List.map_cons, if_neg hk]
        exact List.find?_cons_of_neg _ hk
      have hR : (h :: t).find? (fun a => key a == k) = t.find? (fun a => key a == k) :=
        List.find?_cons_of_neg _ hk
      rw [hL, hR, ih]

/-- A keyed update of rows none of which match the key is the identity. -/
theorem map_update_of_no_match {α : Type} (key : α → String) (f : α → α) (k : String) :
    ∀ l : List α, (∀ a ∈ l, (key a == k) = false) →
      l.map (fun a => if key a == k then f a else a) = l := by
  intro l
  induction l with
  | nil => intro _; rfl
  | cons h t ih =>
    intro hall
    have hh := hall h (List.mem_cons_self h t)
    simp only [List.map_cons]
    rw [if_neg (by simp [hh]), ih (fun a ha => hall a (List.mem_cons_of_mem _ ha))]

/-- Lookup skips a prefix in which the predicate never holds. -/
theorem find?_append_of_none {α : Type} (p : α → Bool) :
    ∀ l₁ l₂ : List α, l₁.find? p = none → (l₁ ++ l₂).find? p = l₂.find? p := by
  intro l₁
  induction l₁ with
  | nil => intro l₂ _; rfl
  | cons h t ih =>
    intro l₂ hnone
    cases hp : p h with
    | true =>
      rw [List.find?_cons_of_pos _ hp] at hnone
      exact absurd hnone (by simp)
    | false =>
      rw [List.find?_cons_of_neg _ (by simp [hp])] at hnone
      rw [List.cons_append, List.find?_cons_of_neg _ (by simp [hp])]
      exact ih l₂ hnone

/-- After renaming the rows keyed `old` to key `new`, looking up `new`
finds the renamed row, provided no row was keyed `new` before. -/
theorem find?_map_rekey {α : Type} (key : α → String) (f : α → α) (old new : String)
    (hf : ∀ a, key (f a) = new) :
    ∀ l : List α, l.find? (fun a => key a == new) = none →
      (l.map (fun a => if key a == old then f a else a)).find? (fun a => key a == new)
        = (l.find? (fun a => key a == old)).map f := by
  intro l
  induction l with
  | nil => intro _; rfl
  | cons h t ih =>
    intro hnone
    rw [List.find?_eq_none] at hnone
    have hn : ¬ (key h == new) = true := hnone h (List.mem_cons_self h t)
    have hnone_t : t.find? (fun a => key a == new) = none :=
      List.find?_eq_none.mpr (fun x hx => hnone x (List.mem_cons_of_mem _ hx))
    by_cases hk : (key h == old) = true
    · have hfn : (key (f h) == new) = true := by rw [hf]; simp
      have hL : (List.map (fun a => if key a == old then f a else a) (h :: t)).find?
          (fun a => key a == new) = some (f h) := by
        rw [List.map_cons, if_pos hk]
        exact List.find?_cons_of_pos _ hfn
      have hR : (h :: t).find? (fun a => key a == old) = some h :=
        List.find?_cons_of_pos _ hk
      rw [hL, hR]; rfl
    · have hL : (List.map (fun a => if key a == old then f a else a) (h :: t)).find?
          (fun a => key a == new)
          = (List.map (fun a => if key a == old then f a else a) t).find?
              (fun a => key a == new) := by
        rw [List.map_cons, if_neg hk]
        exact List.find?_cons_of_neg _ hn
      have hR : (h :: t).find? (fun a => key a == old) = t.find? (fun a => key a == old) :=
        List.find?_cons_of_neg _ hk
      rw [hL, hR, ih hnone_t]

/-- After renaming the rows keyed `old` to a different key `new`, no row is
keyed `old` any more. -/
theorem all_map_rename {α : Type} (key : α → String) (f : α → α) (old new : String)
    (hf : ∀ a, key (f a) = new) (hne : (new == old) = false) (l : List α) :
    (l.map (fun a => if key a == old then f a else a)).all (fun a => !(key a == old)) = true := by
  simp only [List.all_eq_true]
  intro x hx
  rcases List.mem_map.mp hx with ⟨a, _, rfl⟩
  cases hk : (key a == old) with
  | true => simp [hk, hf, hne]
  | false => simp [hk]

/-- A list extended with `x` contains `x`. -/
theorem contains_append_singleton (l : List String) (x : String) :
    (l ++ [x]).contains x = true := by
  have hx : x ∈ l ++ [x] := List.mem_append_right l (List.mem_singleton_self x)
  exact List.elem_eq_true_of_mem hx

/-- The ledger-delta sum over an extended ledger splits. -/
theorem sum_deltas_append (l₁ l₂ : List LedgerEntry) (uid : String) :
    (((l₁ ++ l₂).filter (fun e => e.userId == uid)).map (fun e => e.delta)).sum
      = ((l₁.filter (fun e => e.userId == uid)).map (fun e => e.delta)).sum
        + ((l₂.filter (fun e => e.userId == uid)).map (fun e => e.delta)).sum := by
  simp [List.filter_append]

/-- A map that fixes every element of a list is the identity on it. -/
theorem map_id_of_eq {α : Type} (f : α → α) :
    ∀ l : List α, (∀ a ∈ l, f a = a) → l.map f = l := by
  intro l
  induction l with
  | nil => intro _; rfl
  | cons h t ih =>
    intro hall
    rw [List.map_cons, hall h (List.mem_cons_self h t),
        ih (fun a ha => hall a (List.mem_cons_of_mem _ ha))]

/-! ### Claim C2 — the Job Store's status update on terminal jobs -/

/-- Claim C2, counterexample: `updateJobStatus` applied to a job already in
the terminal state `READY` does NOT leave it unchanged — the status becomes
`FAILED` and the `errorReason` is overwritten, so a terminal status IS
overwritten (`READY` becomes `FAILED`). -/
theorem C2_counterexample :
    getJob (updateJobStatus
        ⟨[], [⟨"job-1", "user-1", "task-1", JobStatus.READY, none⟩], [], [], [], []⟩
        "task-1" JobStatus.FAILED (some "boom")) "task-1"
      = some ⟨"job-1", "user-1", "task-1", JobStatus.FAILED, some "boom"⟩ := by
  decide

/-- Claim C2 (amended): `updateJobStatus` writes unconditionally.  When the
jobs keyed by the task id are `READY`, re-setting `READY` with no
`errorReason` argument is a full no-op on the store — the one idempotence
instance the claim correctly describes — but setting any status together
with an error message overwrites the terminal row (so `READY` can become
`FAILED` and `FAILED` can become `READY`); the terminal-state guard lives
in the callers of `updateJobStatus`, not in the Job Store. -/
theorem C2_setStatus_amended (st : Storage) (tid : String) (j : JobRec)
    (status : JobStatus) (e : String)
    (hready : ∀ jj ∈ st.jobs, jj.taskId = tid → jj.status = JobStatus.READY)
    (hj : getJob st tid = some j) :
    updateJobStatus st tid JobStatus.READY none = st ∧
    getJob (updateJobStatus st tid status (some e)) tid
      = some { j with status := status, errorReason := some e } := by
  constructor
  · have hmap : st.jobs.map (fun jj => if jj.taskId == tid then
        ({ jj with status := JobStatus.READY,
                   errorReason := match (none : Option String) with
                     | some x => some x
                     | none => jj.errorReason } : JobRec)
        else jj) = st.jobs := by
      apply map_id_of_eq
      intro a ha
      by_cases hk : (a.taskId == tid) = true
      · have htid : a.taskId = tid := eq_of_beq hk
        have hst : a.status = JobStatus.READY := hready a ha htid
        cases a with
        | mk id uid tid' s err => simp_all
      · rw [if_neg hk]
    cases st with
    | mk u jbs v l se pi =>
      simp only [updateJobStatus] at hmap ⊢
      rw [hmap]
  · have h2 := find?_map_update (fun jj : JobRec => jj.taskId)
      (fun jj => { jj with status := status, errorReason := some e }) tid
      (fun _ => rfl) st.jobs
    show (st.jobs.map (fun jj => if jj.taskId == tid then
        ({ jj with status := status, errorReason := some e } : JobRec) else jj)).find?
        (fun jj => jj.taskId == tid) = _
    rw [h2]
    have : st.jobs.find? (fun jj => jj.taskId == tid) = some j := hj
    rw [this]
    rfl

/-- Claim C2, witness for the amended theorem at a concrete `READY` job. -/
theorem C2_witness :
    updateJobStatus
        ⟨[], [⟨"job-2", "user-2", "task-2", JobStatus.READY, none⟩], [], [], [], []⟩
        "task-2" JobStatus.READY none
      = ⟨[], [⟨"job-2", "user-2", "task-2", JobStatus.READY, none⟩], [], [], [], []⟩ ∧
    getJob (updateJobStatus
        ⟨[], [⟨"job-2", "user-2", "task-2", JobStatus.READY, none⟩], [], [], [], []⟩
        "task-2" JobStatus.FAILED (some "oops")) "task-2"
      = some ⟨"job-2", "user-2", "task-2", JobStatus.FAILED, some "oops"⟩ :=
  C2_setStatus_amended
    ⟨[], [⟨"job-2", "user-2", "task-2", JobStatus.READY, none⟩], [], [], [], []⟩
    "task-2" ⟨"job-2", "user-2", "task-2", JobStatus.READY, none⟩
    JobStatus.FAILED "oops" (by decide) (by decide)

/-! ### Claim C9 — parseCallback tolerance for missing optional fields -/

/-- Claim C9, counterexample: a raw payload whose `data` object carries the
task id but lacks the optional `info` object makes `parseCallback` throw
(the source dereferences `callbackData.data.info.resultUrls`), while a
payload missing the required `taskId` — but carrying `info` — parses
without throwing.  Both directions of the claim fail. -/
theorem C9_counterexample :
    (parseCallback ⟨some 200, some "ok", some ⟨some "task-1", none, none⟩⟩).isOk = false ∧
    (parseCallback ⟨some 200, some "ok", some ⟨none, some ⟨none, none⟩, none⟩⟩).isOk = true := by
  decide

/-- Claim C9 (amended): `parseCallback` throws exactly when the payload
lacks a `data` object or the `data` object lacks an `info` object; the
fields inside `info` (`resultUrls`, `resolution`), `fallbackFlag`, `msg`
and even the identity field `taskId` may be absent without throwing, and
the optional fields are defaulted. -/
theorem C9_parseCallback_amended (cb : RawCallback) :
    (parseCallback cb).isOk
      = (match cb.data with
         | some d => d.info.isSome
         | none => false) := by
  cases cb with
  | mk code msg data =>
    cases data with
    | none => rfl
    | some d =>
      cases hd : d.info with
      | none => simp [parseCallback, hd, Except.isOk, Except.toBool]
      | some i => simp [parseCallback, hd, Except.isOk, Except.toBool]

/-! ### Claim C10 — the veo-callback endpoint always answers HTTP 200 -/

/-- Every branch of the with-job body responds 200. -/
theorem veoCallbackWithJob_status (cb : ParsedCallback) (taskId : String)
    (updateVideoFails : Bool) (st : Storage) (jobStatus : JobStatus) (pollingActive : Bool) :
    (veoCallbackWithJob cb taskId updateVideoFails st jobStatus pollingActive).httpStatus
      = 200 := rfl

/-- Claim C10: the provider callback endpoint responds with HTTP 200 for
every request — payloads whose parsing throws, payloads without a task id,
unknown task ids whose fallback job creation fails, internal storage
errors (caught by the outer catch), and every successful processing path
alike — so the provider never receives a retry-inducing error status. -/
theorem C10_callback_always_200 (raw : RawCallback)
    (createFails thrownMidway updateVideoFails : Bool)
    (st : Storage) (pollingActive : Bool) :
    (veoCallbackHandler raw createFails thrownMidway updateVideoFails st pollingActive).httpStatus
      = 200 := by
  unfold veoCallbackHandler
  (repeat' split) <;> rfl

/-! ### Claim C6 — polling exhaustion after exactly 30 attempts -/

/-- Claim C6: for a job whose status lookups never report result URLs, the
polling loop performs exactly 30 attempts — the controller starts with the
first tick scheduled after the fixed 20-second delay and every non-final
tick reschedules after the same delay, so exactly 30 timeouts of 20000 ms
are scheduled — and the 30th attempt transitions the job to `FAILED` with
the timeout reason and deactivates the controller (more fuel changes
nothing, so never more attempts); and a transient fetch error on an
attempt below the ceiling performs no status write and reschedules. -/
theorem C6_polling_exhaustion :
    (runPoll "t1" (fun _ => FetchOutcome.success [] none none) 100
        ⟨[], [⟨"job-1", "u1", "t1", JobStatus.PROCESSING, none⟩], [], [], [], []⟩
        startPollingCtl
      = (⟨[], [⟨"job-1", "u1", "t1", JobStatus.FAILED,
            some "Polling timeout - video generation took too long"⟩], [], [], [], []⟩,
         ⟨false, 30, List.replicate 30 pollDelayMs⟩)) ∧
    (∀ (st : Storage) (pc : PollCtl) (tid m : String) (j : JobRec),
      pc.active = true → getJob st tid = some j → j.status.isTerminal = false →
      pc.attempts + 1 < maxPollAttempts →
      pollTick tid (FetchOutcome.fetchError m) st pc
        = (st, { pc with attempts := pc.attempts + 1,
                         scheduled := pc.scheduled ++ [pollDelayMs] })) := by
  constructor
  · decide
  · intro st pc tid m j hact hj hterm hceil
    have hceil' : pc.attempts + 1 < 30 := hceil
    simp only [pollTick, hact, Bool.not_true, Bool.false_eq_true, if_false, hj, hterm]
    rw [if_neg (by simp only [maxPollAttempts]; omega)]

/-- Claim C6, witness: a transient fetch error on attempt 1 of 30 leaves
the job untouched and reschedules one more 20-second tick. -/
theorem C6_witness :
    pollTick "t1" (FetchOutcome.fetchError "boom")
        ⟨[], [⟨"job-1", "u1", "t1", JobStatus.PROCESSING, none⟩], [], [], [], []⟩
        ⟨true, 0, [pollDelayMs]⟩
      = (⟨[], [⟨"job-1", "u1", "t1", JobStatus.PROCESSING, none⟩], [], [], [], []⟩,
         ⟨true, 1, [pollDelayMs, pollDelayMs]⟩) :=
  C6_polling_exhaustion.2
    ⟨[], [⟨"job-1", "u1", "t1", JobStatus.PROCESSING, none⟩], [], [], [], []⟩
    ⟨true, 0, [pollDelayMs]⟩ "t1" "boom"
    ⟨"job-1", "u1", "t1", JobStatus.PROCESSING, none⟩
    rfl (by decide) (by decide) (by decide)

/-! ### Claim C3 — atomic single-credit debit -/

/-- Once the user's balance is below one credit, every further serialized
debit call fails and leaves the state untouched. -/
theorem consumeN_zero (uid : String) :
    ∀ (jobIds : List String) (st : Storage) (u : UserRec),
      st.users.find? (fun v => v.id == uid) = some u → u.creditsRemaining < 1 →
      consumeN st uid jobIds = (st, 0) := by
  intro jobIds
  induction jobIds with
  | nil => intro st u _ _; rfl
  | cons j rest ih =>
    intro st u hf hlt
    have hcc : consumeCredits st uid j = (st, false) := by
      simp [consumeCredits, hf, hlt]
    calc consumeN st uid (j :: rest)
        = ((consumeN (consumeCredits st uid j).1 uid rest).1,
           (if (consumeCredits st uid j).2 then 1 else 0)
             + (consumeN (consumeCredits st uid j).1 uid rest).2) := rfl
      _ = (st, 0) := by rw [hcc, ih st u hf hlt]; exact rfl

/-- Claim C3: with at least one credit, `consumeCredits` decrements the
balance by exactly one, appends exactly one `video_generation` ledger entry
carrying the related job id, and returns true; with less than one credit it
changes nothing and returns false; and any non-empty sequence of
row-lock-serialized debit calls against a balance of exactly one credit
yields exactly one success. -/
theorem C3_consumeCredits (st : Storage) (uid jid : String) (u : UserRec)
    (hfind : st.users.find? (fun v => v.id == uid) = some u) :
    (1 ≤ u.creditsRemaining →
      (consumeCredits st uid jid).2 = true ∧
      getUserCreditsBalance (consumeCredits st uid jid).1 uid = u.creditsRemaining - 1 ∧
      (consumeCredits st uid jid).1.ledger
        = st.ledger ++ [⟨uid, -1, "video_generation", some jid⟩]) ∧
    (u.creditsRemaining < 1 → consumeCredits st uid jid = (st, false)) ∧
    (∀ jobIds : List String, jobIds ≠ [] → u.creditsRemaining = 1 →
      (consumeN st uid jobIds).2 = 1) := by
  have hm := find?_map_update (fun v : UserRec => v.id)
    (fun v => { v with creditsRemaining := u.creditsRemaining - 1 }) uid
    (fun _ => rfl) st.users
  refine ⟨?_, ?_, ?_⟩
  · intro h1
    have hnot : ¬ (u.creditsRemaining < 1) := by omega
    have hcc : consumeCredits st uid jid
        = ({ st with
              users := st.users.map fun v =>
                if v.id == uid then { v with creditsRemaining := u.creditsRemaining - 1 } else v,
              ledger := st.ledger ++ [⟨uid, -1, "video_generation", some jid⟩] }, true) := by
      simp [consumeCredits, hfind, hnot]
    rw [hcc]
    refine ⟨rfl, ?_, rfl⟩
    show (((st.users.map fun v =>
        if v.id == uid then { v with creditsRemaining := u.creditsRemaining - 1 } else v).find?
          (fun v => v.id == uid)).map (fun v => v.creditsRemaining)).getD 0
      = u.creditsRemaining - 1
    rw [hm, hfind]
    rfl
  · intro hlt
    simp [consumeCredits, hfind, hlt]
  · intro jobIds hne h1
    cases jobIds with
    | nil => exact absurd rfl hne
    | cons j rest =>
      have hnot : ¬ (u.creditsRemaining < 1) := by omega
      have hcc : consumeCredits st uid j
          = ({ st with
                users := st.users.map fun v =>
                  if v.id == uid then { v with creditsRemaining := u.creditsRemaining - 1 } else v,
                ledger := st.ledger ++ [⟨uid, -1, "video_generation", some j⟩] }, true) := by
        simp [consumeCredits, hfind, hnot]
      have hfind2 : ({ st with
              users := st.users.map fun v =>
                if v.id == uid then { v with creditsRemaining := u.creditsRemaining - 1 } else v,
              ledger := st.ledger ++ [⟨uid, -1, "video_generation", some j⟩] } : Storage).users.find?
            (fun v => v.id == uid)
          = some { u with creditsRemaining := u.creditsRemaining - 1 } := by
        show (st.users.map fun v =>
            if v.id == uid then { v with creditsRemaining := u.creditsRemaining - 1 } else v).find?
            (fun v => v.id == uid) = _
        rw [hm, hfind]
        rfl
      have hz := consumeN_zero uid rest _ _ hfind2 (by simp; omega)
      calc (consumeN st uid (j :: rest)).2
          = (if (consumeCredits st uid j).2 then 1 else 0)
              + (consumeN (consumeCredits st uid j).1 uid rest).2 := rfl
        _ = 1 := by rw [hcc, hz]; exact rfl

/-- Claim C3, witness: a user holding exactly one credit; a single debit
succeeds, and three serialized debits produce exactly one success. -/
theorem C3_witness :
    (consumeCredits ⟨[⟨"u1", 1, none, none, none, none⟩], [], [], [], [], []⟩ "u1" "j1").2
      = true ∧
    (consumeN ⟨[⟨"u1", 1, none, none, none, none⟩], [], [], [], [], []⟩ "u1"
        ["a", "b", "c"]).2 = 1 := by
  constructor
  · exact ((C3_consumeCredits ⟨[⟨"u1", 1, none, none, none, none⟩], [], [], [], [], []⟩
      "u1" "j1" ⟨"u1", 1, none, none, none, none⟩ (by decide)).1 (by decide)).1
  · exact (C3_consumeCredits ⟨[⟨"u1", 1, none, none, none, none⟩], [], [], [], [], []⟩
      "u1" "j1" ⟨"u1", 1, none, none, none, none⟩ (by decide)).2.2
      ["a", "b", "c"] (by decide) (by decide)

/-! ### Claim C4 — balance equals ledger sum after credit operations -/

/-- If an operation updates the user row found at `uid` so that its balance
shifts by exactly the delta of the single ledger entry it appends, the
balance-equals-ledger-sum invariant is preserved. -/
theorem balanceMatchesLedger_shift (st st' : Storage) (uid : String) (u : UserRec)
    (hf : st.users.find? (fun v => v.id == uid) = some u)
    (f : UserRec → UserRec) (hfid : ∀ a, (f a).id = a.id)
    (e : LedgerEntry) (heu : (e.userId == uid) = true)
    (hfcred : (f u).creditsRemaining = u.creditsRemaining + e.delta)
    (husers : st'.users = st.users.map (fun v => if v.id == uid then f v else v))
    (hledger : st'.ledger = st.ledger ++ [e])
    (hbmi : balanceMatchesLedger st uid) :
    balanceMatchesLedger st' uid := by
  unfold balanceMatchesLedger getUserCreditsBalance ledgerSum at hbmi ⊢
  rw [hf] at hbmi
  rw [husers, hledger, find?_map_update (fun v : UserRec => v.id) f uid hfid st.users, hf,
      sum_deltas_append]
  simp only [Option.map_some', Option.getD_some, hfcred] at hbmi ⊢
  simp [heu]
  omega

/-- Claim C4, counterexample: `addWelcomeCredits` overwrites the balance
with the granted amount instead of incrementing it.  A user with balance 5
(matching a single +5 ledger entry) ends at balance 10 after a welcome
grant of 10, while the ledger sums to 15, breaking the invariant. -/
theorem C4_counterexample :
    balanceMatchesLedger
      ⟨[⟨"u1", 5, none, none, none, none⟩], [], [], [⟨"u1", 5, "promo", none⟩], [], []⟩ "u1" ∧
    getUserCreditsBalance
      (addWelcomeCredits
        ⟨[⟨"u1", 5, none, none, none, none⟩], [], [], [⟨"u1", 5, "promo", none⟩], [], []⟩
        "u1" 10) "u1" = 10 ∧
    ledgerSum
      (addWelcomeCredits
        ⟨[⟨"u1", 5, none, none, none, none⟩], [], [], [⟨"u1", 5, "promo", none⟩], [], []⟩
        "u1" 10) "u1" = 15 ∧
    ¬ balanceMatchesLedger
      (addWelcomeCredits
        ⟨[⟨"u1", 5, none, none, none, none⟩], [], [], [⟨"u1", 5, "promo", none⟩], [], []⟩
        "u1" 10) "u1" := by
  refine ⟨by decide, by decide, by decide, by decide⟩

/-- Claim C4 (amended): the debit, refund, subscription-grant and
Stripe-renewal-grant operations each change the balance by exactly the
delta of the single ledger entry they append in the same transaction, so
each preserves balance = ledger-sum; `addWelcomeCredits`, however, SETS the
balance to the granted amount while appending a ledger entry of that
amount, so it preserves the invariant only when the user's prior balance is
zero (its account-creation use) and overwrites rather than increments in
general. -/
theorem C4_amended :
    (∀ (st : Storage) (uid jid : String), balanceMatchesLedger st uid →
       balanceMatchesLedger (consumeCredits st uid jid).1 uid) ∧
    (∀ (st : Storage) (uid jid : String), balanceMatchesLedger st uid →
       balanceMatchesLedger (refundCredits st uid jid) uid) ∧
    (∀ (st : Storage) (uid : String) (credits : Int), balanceMatchesLedger st uid →
       balanceMatchesLedger (addSubscriptionCredits st uid credits) uid) ∧
    (∀ (st : Storage) (uid plan : String) (credits : Int) (renewAt : Nat)
       (subId : Option String) (inv ev : String) (u : UserRec),
       st.users.find? (fun v => v.id == uid) = some u →
       balanceMatchesLedger st uid →
       balanceMatchesLedger (applyRenewalGrant st uid credits plan renewAt subId inv ev) uid) ∧
    (∀ (st : Storage) (uid : String) (credits : Int) (u : UserRec),
       st.users.find? (fun v => v.id == uid) = some u →
       u.creditsRemaining = 0 →
       balanceMatchesLedger st uid →
       balanceMatchesLedger (addWelcomeCredits st uid credits) uid) := by
  refine ⟨?_, ?_, ?_, ?_, ?_⟩
  · intro st uid jid hbmi
    cases hf : st.users.find? (fun v => v.id == uid) with
    | none =>
      have hid : consumeCredits st uid jid = (st, false) := by
        simp [consumeCredits, hf]
      rw [hid]
      exact hbmi
    | some u =>
      by_cases hlt : u.creditsRemaining < 1
      · have hid : consumeCredits st uid jid = (st, false) := by
          simp [consumeCredits, hf, hlt]
        rw [hid]
        exact hbmi
      · have hcc : consumeCredits st uid jid
            = ({ st with
                  users := st.users.map fun v =>
                    if v.id == uid then { v with creditsRemaining := u.creditsRemaining - 1 }
                    else v,
                  ledger := st.ledger ++ [⟨uid, -1, "video_generation", some jid⟩] }, true) := by
          simp [consumeCredits, hf, hlt]
        rw [hcc]
        exact balanceMatchesLedger_shift st _ uid u hf
          (fun v => { v with creditsRemaining := u.creditsRemaining - 1 }) (fun _ => rfl)
          ⟨uid, -1, "video_generation", some jid⟩ (by simp)
          (by show u.creditsRemaining - 1 = u.creditsRemaining + (-1 : Int); omega) rfl rfl hbmi
  · intro st uid jid hbmi
    cases hf : st.users.find? (fun v => v.id == uid) with
    | none =>
      have hid : refundCredits st uid jid = st := by
        simp [refundCredits, hf]
      rw [hid]
      exact hbmi
    | some u =>
      have hcc : refundCredits st uid jid
          = { st with
              users := st.users.map fun v =>
                if v.id == uid then { v with creditsRemaining := u.creditsRemaining + 1 } else v,
              ledger := st.ledger ++ [⟨uid, 1, "refund", some jid⟩] } := by
        simp [refundCredits, hf]
      rw [hcc]
      exact balanceMatchesLedger_shift st _ uid u hf
        (fun v => { v with creditsRemaining := u.creditsRemaining + 1 }) (fun _ => rfl)
        ⟨uid, 1, "refund", some jid⟩ (by simp)
        (show u.creditsRemaining + 1 = u.creditsRemaining + (1 : Int) from rfl) rfl rfl hbmi
  · intro st uid credits hbmi
    cases hf : st.users.find? (fun v => v.id == uid) with
    | none =>
      have hid : addSubscriptionCredits st uid credits = st := by
        simp [addSubscriptionCredits, hf]
      rw [hid]
      exact hbmi
    | some u =>
      have hcc : addSubscriptionCredits st uid credits
          = { st with
              users := st.users.map fun v =>
                if v.id == uid then { v with creditsRemaining := u.creditsRemaining + credits }
                else v,
              ledger := st.ledger ++ [⟨uid, credits, "subscription_payment", none⟩] } := by
        simp [addSubscriptionCredits, hf]
      rw [hcc]
      exact balanceMatchesLedger_shift st _ uid u hf
        (fun v => { v with creditsRemaining := u.creditsRemaining + credits }) (fun _ => rfl)
        ⟨uid, credits, "subscription_payment", none⟩ (by simp)
        (show u.creditsRemaining + credits = u.creditsRemaining + credits from rfl) rfl rfl hbmi
  · intro st uid plan credits renewAt subId inv ev u hf hbmi
    refine balanceMatchesLedger_shift st _ uid u hf
      (fun v => { v with
        creditsRemaining :=
          ((st.users.find? (fun w => w.id == uid)).map (fun w => w.creditsRemaining)).getD 0
            + credits,
        activePlan := some plan,
        creditsRenewAt := some renewAt,
        stripeSubscriptionId := subId }) (fun _ => rfl)
      ⟨uid, credits, "stripe_" ++ plan ++ "_renewal", none⟩ (by simp) ?_ rfl rfl hbmi
    show ((st.users.find? (fun w => w.id == uid)).map (fun w => w.creditsRemaining)).getD 0
        + credits = u.creditsRemaining + credits
    rw [hf]
    rfl
  · intro st uid credits u hf hzero hbmi
    refine balanceMatchesLedger_shift st _ uid u hf
      (fun v => { v with creditsRemaining := credits }) (fun _ => rfl)
      ⟨uid, credits, "promo", none⟩ (by simp) ?_ rfl rfl hbmi
    show credits = u.creditsRemaining + credits
    omega

/-- Claim C4, witness: the preservation cases applied at a concrete state
with one user holding 2 credits matching a +2 ledger entry. -/
theorem C4_witness :
    balanceMatchesLedger
      (consumeCredits
        ⟨[⟨"u1", 2, none, none, none, none⟩], [], [], [⟨"u1", 2, "promo", none⟩], [], []⟩
        "u1" "j1").1 "u1" ∧
    balanceMatchesLedger
      (addWelcomeCredits
        ⟨[⟨"u1", 0, none, none, none, none⟩], [], [], [], [], []⟩ "u1" 10) "u1" :=
  ⟨C4_amended.1
      ⟨[⟨"u1", 2, none, none, none, none⟩], [], [], [⟨"u1", 2, "promo", none⟩], [], []⟩
      "u1" "j1" (by decide),
   C4_amended.2.2.2.2
      ⟨[⟨"u1", 0, none, none, none, none⟩], [], [], [], [], []⟩
      "u1" 10 ⟨"u1", 0, none, none, none, none⟩ (by decide) (by decide) (by decide)⟩

/-! ### Claim C7 — no refund after a provider-submission failure -/

/-- Claim C7: when the debit succeeded and the provider submit call then
fails, the submission flow answers 500, marks the Job `FAILED` with the
provider's error message, leaves the balance decremented by exactly one,
and appends exactly the single `video_generation` debit entry for the job —
the ledger holds no refund entry (no entry at all besides the debit) for
that job. -/
theorem C7_no_refund (st : Storage) (uid tid prompt jobId msg : String) (u : UserRec)
    (hfind : st.users.find? (fun v => v.id == uid) = some u)
    (hcred : 1 ≤ u.creditsRemaining)
    (hfreshJobs : ∀ jj ∈ st.jobs, (jj.taskId == tid) = false)
    (hledger : ∀ e ∈ st.ledger, (e.jobId == some jobId) = false) :
    (createJobFlow st uid tid prompt jobId (ProviderOutcome.failed msg)).2 = 500 ∧
    getJob (createJobFlow st uid tid prompt jobId (ProviderOutcome.failed msg)).1 tid
      = some ⟨jobId, uid, tid, JobStatus.FAILED, some msg⟩ ∧
    getUserCreditsBalance (createJobFlow st uid tid prompt jobId (ProviderOutcome.failed msg)).1
        uid = u.creditsRemaining - 1 ∧
    (createJobFlow st uid tid prompt jobId (ProviderOutcome.failed msg)).1.ledger
      = st.ledger ++ [⟨uid, -1, "video_generation", some jobId⟩] ∧
    ((createJobFlow st uid tid prompt jobId (ProviderOutcome.failed msg)).1.ledger.filter
        (fun e => e.jobId == some jobId))
      = [⟨uid, -1, "video_generation", some jobId⟩] := by
  have hnot : ¬ (u.creditsRemaining < 1) := by omega
  have hcc : consumeCredits (createJob st ⟨jobId, uid, tid, JobStatus.QUEUED, none⟩) uid jobId
      = ({ users := st.users.map (fun v =>
              if v.id == uid then { v with creditsRemaining := u.creditsRemaining - 1 } else v),
           jobs := st.jobs ++ [⟨jobId, uid, tid, JobStatus.QUEUED, none⟩],
           videos := st.videos,
           ledger := st.ledger ++ [⟨uid, -1, "video_generation", some jobId⟩],
           stripeEvents := st.stripeEvents,
           processedInvoices := st.processedInvoices }, true) := by
    simp [consumeCredits, createJob, hfind, hnot]
  have hflow : createJobFlow st uid tid prompt jobId (ProviderOutcome.failed msg)
      = (updateJobStatus (createVideo
          { users := st.users.map (fun v =>
              if v.id == uid then { v with creditsRemaining := u.creditsRemaining - 1 } else v),
            jobs := st.jobs ++ [⟨jobId, uid, tid, JobStatus.QUEUED, none⟩],
            videos := st.videos,
            ledger := st.ledger ++ [⟨uid, -1, "video_generation", some jobId⟩],
            stripeEvents := st.stripeEvents,
            processedInvoices := st.processedInvoices }
          ⟨uid, tid, prompt, none, none, false⟩) tid JobStatus.FAILED (some msg), 500) := by
    simp only [createJobFlow]
    rw [hcc]
    exact rfl
  refine ⟨by rw [hflow], ?_, ?_, ?_, ?_⟩
  · rw [hflow]
    show ((st.jobs ++ [(⟨jobId, uid, tid, JobStatus.QUEUED, none⟩ : JobRec)]).map (fun j =>
        if j.taskId == tid then
          ({ j with status := JobStatus.FAILED, errorReason := some msg } : JobRec)
        else j)).find? (fun j => j.taskId == tid)
      = some (⟨jobId, uid, tid, JobStatus.FAILED, some msg⟩ : JobRec)
    rw [List.map_append,
        map_update_of_no_match (fun j : JobRec => j.taskId) _ tid st.jobs hfreshJobs,
        find?_append_of_none _ st.jobs _
          (List.find?_eq_none.mpr (fun x hx => by simp [hfreshJobs x hx]))]
    simp
  · rw [hflow]
    show (((st.users.map (fun v =>
        if v.id == uid then { v with creditsRemaining := u.creditsRemaining - 1 } else v)).find?
          (fun v => v.id == uid)).map (fun v => v.creditsRemaining)).getD 0
      = u.creditsRemaining - 1
    rw [find?_map_update (fun v : UserRec => v.id)
        (fun v => { v with creditsRemaining := u.creditsRemaining - 1 }) uid
        (fun _ => rfl) st.users, hfind]
    rfl
  · rw [hflow]
    exact rfl
  · rw [hflow]
    show ((st.ledger ++ [(⟨uid, -1, "video_generation", some jobId⟩ : LedgerEntry)]).filter
        (fun e => e.jobId == some jobId))
      = [(⟨uid, -1, "video_generation", some jobId⟩ : LedgerEntry)]
    rw [List.filter_append]
    have h1 : st.ledger.filter (fun e => e.jobId == some jobId) = [] := by
      rw [List.filter_eq_nil_iff]
      intro a ha
      simp [hledger a ha]
    rw [h1]
    simp

/-- Claim C7, witness: a concrete failed provider call after a successful
debit — status 500, job `FAILED` with the provider message, balance down by
one, single debit entry and no refund entry. -/
theorem C7_witness :
    (createJobFlow ⟨[⟨"u1", 1, none, none, none, none⟩], [], [], [], [], []⟩
        "u1" "t1" "a prompt" "j1" (ProviderOutcome.failed "provider down")).2 = 500 ∧
    getJob (createJobFlow ⟨[⟨"u1", 1, none, none, none, none⟩], [], [], [], [], []⟩
        "u1" "t1" "a prompt" "j1" (ProviderOutcome.failed "provider down")).1 "t1"
      = some ⟨"j1", "u1", "t1", JobStatus.FAILED, some "provider down"⟩ ∧
    getUserCreditsBalance
      (createJobFlow ⟨[⟨"u1", 1, none, none, none, none⟩], [], [], [], [], []⟩
        "u1" "t1" "a prompt" "j1" (ProviderOutcome.failed "provider down")).1 "u1" = 1 - 1 ∧
    (createJobFlow ⟨[⟨"u1", 1, none, none, none, none⟩], [], [], [], [], []⟩
        "u1" "t1" "a prompt" "j1" (ProviderOutcome.failed "provider down")).1.ledger
      = [] ++ [⟨"u1", -1, "video_generation", some "j1"⟩] ∧
    ((createJobFlow ⟨[⟨"u1", 1, none, none, none, none⟩], [], [], [], [], []⟩
        "u1" "t1" "a prompt" "j1" (ProviderOutcome.failed "provider down")).1.ledger.filter
        (fun e => e.jobId == some "j1"))
      = [⟨"u1", -1, "video_generation", some "j1"⟩] :=
  C7_no_refund ⟨[⟨"u1", 1, none, none, none, none⟩], [], [], [], [], []⟩
    "u1" "t1" "a prompt" "j1" "provider down" ⟨"u1", 1, none, none, none, none⟩
    (by decide) (by decide) (by decide) (by decide)

/-! ### Claim C8 — rekey of the Job/Video pair -/

/-- Claim C8, counterexample: the rekey is two sequential awaited updates
(routes.ts lines 327-328), so the state reached after `updateJobTaskId` and
before `updateVideoTaskId` — `rekeyIntermediate` — is a reachable state in
which the Job already carries the provider-assigned id while the Video
still carries the placeholder id. -/
theorem C8_counterexample :
    (getJob (rekeyIntermediate
        ⟨[], [⟨"j1", "u1", "old-task", JobStatus.PROCESSING, none⟩],
         [⟨"u1", "old-task", "p", none, none, false⟩], [], [], []⟩
        "old-task" "new-task") "new-task").isSome = true ∧
    getVideoByTaskId (rekeyIntermediate
        ⟨[], [⟨"j1", "u1", "old-task", JobStatus.PROCESSING, none⟩],
         [⟨"u1", "old-task", "p", none, none, false⟩], [], [], []⟩
        "old-task" "new-task") "new-task" = none ∧
    (getVideoByTaskId (rekeyIntermediate
        ⟨[], [⟨"j1", "u1", "old-task", JobStatus.PROCESSING, none⟩],
         [⟨"u1", "old-task", "p", none, none, false⟩], [], [], []⟩
        "old-task" "new-task") "old-task").isSome = true := by
  refine ⟨by decide, by decide, by decide⟩

/-- Claim C8 (amended): after BOTH sequential updates complete, the Job and
the Video both carry the provider-assigned task id and no record keyed by
the placeholder id remains; but the rekey is not atomic — the intermediate
state with only the Job renamed is reachable between the two updates. -/
theorem C8_rekey_amended (st : Storage) (oldId newId : String) (j : JobRec) (v : VideoRec)
    (hne : (newId == oldId) = false)
    (hj : getJob st oldId = some j)
    (hv : getVideoByTaskId st oldId = some v)
    (hjfresh : getJob st newId = none)
    (hvfresh : getVideoByTaskId st newId = none) :
    getJob (rekeyJobVideo st oldId newId) newId = some { j with taskId := newId } ∧
    getVideoByTaskId (rekeyJobVideo st oldId newId) newId = some { v with taskId := newId } ∧
    (rekeyJobVideo st oldId newId).jobs.all (fun a => !(a.taskId == oldId)) = true ∧
    (rekeyJobVideo st oldId newId).videos.all (fun a => !(a.taskId == oldId)) = true := by
  refine ⟨?_, ?_, ?_, ?_⟩
  · show (st.jobs.map (fun a =>
        if a.taskId == oldId then ({ a with taskId := newId } : JobRec) else a)).find?
        (fun a => a.taskId == newId) = some { j with taskId := newId }
    have hj2 : st.jobs.find? (fun a => a.taskId == oldId) = some j := hj
    rw [find?_map_rekey (fun a : JobRec => a.taskId) (fun a => { a with taskId := newId })
        oldId newId (fun _ => rfl) st.jobs hjfresh, hj2]
    rfl
  · show (st.videos.map (fun a =>
        if a.taskId == oldId then ({ a with taskId := newId } : VideoRec) else a)).find?
        (fun a => a.taskId == newId) = some { v with taskId := newId }
    have hv2 : st.videos.find? (fun a => a.taskId == oldId) = some v := hv
    rw [find?_map_rekey (fun a : VideoRec => a.taskId) (fun a => { a with taskId := newId })
        oldId newId (fun _ => rfl) st.videos hvfresh, hv2]
    rfl
  · show (st.jobs.map (fun a =>
        if a.taskId == oldId then ({ a with taskId := newId } : JobRec) else a)).all
        (fun a => !(a.taskId == oldId)) = true
    exact all_map_rename (fun a : JobRec => a.taskId) (fun a => { a with taskId := newId })
      oldId newId (fun _ => rfl) hne st.jobs
  · show (st.videos.map (fun a =>
        if a.taskId == oldId then ({ a with taskId := newId } : VideoRec) else a)).all
        (fun a => !(a.taskId == oldId)) = true
    exact all_map_rename (fun a : VideoRec => a.taskId) (fun a => { a with taskId := newId })
      oldId newId (fun _ => rfl) hne st.videos

/-- Claim C8, witness for the amended theorem at a concrete Job/Video pair. -/
theorem C8_witness :
    getJob (rekeyJobVideo
        ⟨[], [⟨"j1", "u1", "old-task", JobStatus.PROCESSING, none⟩],
         [⟨"u1", "old-task", "p", none, none, false⟩], [], [], []⟩
        "old-task" "new-task") "new-task"
      = some ⟨"j1", "u1", "new-task", JobStatus.PROCESSING, none⟩ ∧
    getVideoByTaskId (rekeyJobVideo
        ⟨[], [⟨"j1", "u1", "old-task", JobStatus.PROCESSING, none⟩],
         [⟨"u1", "old-task", "p", none, none, false⟩], [], [], []⟩
        "old-task" "new-task") "new-task"
      = some ⟨"u1", "new-task", "p", none, none, false⟩ ∧
    (rekeyJobVideo
        ⟨[], [⟨"j1", "u1", "old-task", JobStatus.PROCESSING, none⟩],
         [⟨"u1", "old-task", "p", none, none, false⟩], [], [], []⟩
        "old-task" "new-task").jobs.all (fun a => !(a.taskId == "old-task")) = true ∧
    (rekeyJobVideo
        ⟨[], [⟨"j1", "u1", "old-task", JobStatus.PROCESSING, none⟩],
         [⟨"u1", "old-task", "p", none, none, false⟩], [], [], []⟩
        "old-task" "new-task").videos.all (fun a => !(a.taskId == "old-task")) = true :=
  C8_rekey_amended
    ⟨[], [⟨"j1", "u1", "old-task", JobStatus.PROCESSING, none⟩],
     [⟨"u1", "old-task", "p", none, none, false⟩], [], [], []⟩
    "old-task" "new-task"
    ⟨"j1", "u1", "old-task", JobStatus.PROCESSING, none⟩
    ⟨"u1", "old-task", "p", none, none, false⟩
    (by decide) (by decide) (by decide) (by decide) (by decide)

/-! ### Claim C1 — the dual-path terminal-transition race -/

/-- Claim C1, counterexample.  First, a serialized interleaving in which
the polling tick times the job out (`PROCESSING` to `FAILED`) and the
webhook — whose guard checks only for `READY` — then observes the terminal
`FAILED` state yet still writes, so the job undergoes TWO terminal
transitions (`FAILED` then `READY`).  Second, the webhook's unguarded
write site (routes.ts 448-451): a code-200 callback with no result URLs,
delivered for a job the webhook observed as already `READY`, still writes
`FAILED` and leaves the polling controller active. -/
theorem C1_counterexample :
    (runRace 200 none ["url-1"] (FetchOutcome.success [] none none) 30
        [RaceLabel.pRead, RaceLabel.pWrite, RaceLabel.wRead, RaceLabel.wWrite]
        raceInit).terminalTransitions = 2 ∧
    (runRace 200 none ["url-1"] (FetchOutcome.success [] none none) 30
        [RaceLabel.pRead, RaceLabel.pWrite, RaceLabel.wRead, RaceLabel.wWrite]
        raceInit).wWroteFrom = some JobStatus.FAILED ∧
    JobStatus.isTerminal JobStatus.FAILED = true ∧
    (runRace 200 none [] (FetchOutcome.success [] none none) 1
        [RaceLabel.wRead, RaceLabel.wWrite, RaceLabel.wWrite2]
        ⟨JobStatus.READY, none, true, none, false, none, none, none, none, 0⟩).status
      = JobStatus.FAILED ∧
    (runRace 200 none [] (FetchOutcome.success [] none none) 1
        [RaceLabel.wRead, RaceLabel.wWrite, RaceLabel.wWrite2]
        ⟨JobStatus.READY, none, true, none, false, none, none, none, none, 0⟩).wObs
      = some JobStatus.READY ∧
    (runRace 200 none [] (FetchOutcome.success [] none none) 1
        [RaceLabel.wRead, RaceLabel.wWrite, RaceLabel.wWrite2]
        ⟨JobStatus.READY, none, true, none, false, none, none, none, none, 0⟩).pollActive
      = true := by
  refine ⟨by decide, by decide, by decide, by decide, by decide, by decide⟩

/-- Each scheduler step keeps the write discipline that the code actually
implements: the webhook's guarded write only ever happens under an
observation other than `READY`, its unguarded write only for a code-200
callback without result URLs, and a poll write only under a non-terminal
observation. -/
theorem raceStep_preserves_write_inv (cbCode : Nat) (cbMsg : Option String)
    (cbUrls : List String) (fetch : FetchOutcome) (attempts : Nat)
    (c : RaceConfig) (l : RaceLabel)
    (h : RaceWriteInv cbCode cbUrls c) :
    RaceWriteInv cbCode cbUrls (raceStep cbCode cbMsg cbUrls fetch attempts c l) := by
  obtain ⟨hw, h2, hp⟩ := h
  cases l with
  | wRead =>
    simp only [raceStep]
    split
    · exact ⟨hw, h2, hp⟩
    · exact ⟨hw, h2, hp⟩
  | wWrite =>
    simp only [raceStep]
    split
    · exact ⟨hw, h2, hp⟩
    · rename_i s hobs
      split
      · exact ⟨hw, h2, hp⟩
      · split
        · rename_i hdone hready
          by_cases hcode : (cbCode == 200) = true
          · simp only [hcode, if_true]
            refine ⟨?_, h2, fun s' hs' => hp s' hs'⟩
            intro s' hs'
            have hinj : some s = some s' := hs'
            injection hinj with h3
            subst h3
            simpa using hready
          · simp only [hcode, if_false]
            refine ⟨?_, h2, fun s' hs' => hp s' hs'⟩
            intro s' hs'
            have hinj : some s = some s' := hs'
            injection hinj with h3
            subst h3
            simpa using hready
        · exact ⟨hw, h2, hp⟩
  | wWrite2 =>
    simp only [raceStep]
    split
    · split
      · rename_i hstep hcond
        refine ⟨fun s' hs' => hw s' hs', ?_, fun s' hs' => hp s' hs'⟩
        intro _
        have hcond2 := hcond
        simp only [Bool.and_eq_true, beq_iff_eq] at hcond2
        refine ⟨hcond2.1, ?_⟩
        cases hu : cbUrls with
        | nil => rfl
        | cons a t =>
          rw [hu] at hcond2
          simp [List.isEmpty] at hcond2
      · refine ⟨hw, ?_, hp⟩
        intro hfalse
        have : (some false : Option Bool) = some true := hfalse
        simp at this
    · exact ⟨hw, h2, hp⟩
  | pRead =>
    simp only [raceStep]
    split
    · exact ⟨hw, h2, hp⟩
    · exact ⟨hw, h2, hp⟩
  | pWrite =>
    simp only [raceStep]
    split
    · exact ⟨hw, h2, hp⟩
    · rename_i s hobs
      split
      · exact ⟨hw, h2, hp⟩
      · split
        · exact ⟨hw, h2, hp⟩
        · rename_i hdone hterm
          have hterm2 : s.isTerminal = false := by
            cases hst : s.isTerminal with
            | true => exact absurd hst hterm
            | false => rfl
          cases fetch with
          | success resultUrls resolution fallbackFlag =>
            cases resultUrls with
            | cons url rest =>
              refine ⟨fun s' hs' => hw s' hs', h2, ?_⟩
              intro s' hs'
              have hinj : some s = some s' := hs'
              injection hinj with h3
              subst h3
              exact hterm2
            | nil =>
              by_cases hceil : attempts ≥ maxPollAttempts
              · simp only [hceil, if_true]
                refine ⟨fun s' hs' => hw s' hs', h2, ?_⟩
                intro s' hs'
                have hinj : some s = some s' := hs'
                injection hinj with h3
                subst h3
                exact hterm2
              · simp only [hceil, if_false]
                exact ⟨hw, h2, hp⟩
          | fetchError m =>
            by_cases hceil : attempts ≥ maxPollAttempts
            · simp only [hceil, if_true]
              refine ⟨fun s' hs' => hw s' hs', h2, ?_⟩
              intro s' hs'
              have hinj : some s = some s' := hs'
              injection hinj with h3
              subst h3
              exact hterm2
            · simp only [hceil, if_false]
              exact ⟨hw, h2, hp⟩

/-- Claim C1 (amended): over every interleaving of the webhook's and the
polling tick's steps, every guarded webhook write (routes.ts 412-427)
happened under an observation other than `READY`; every write by the
webhook's second, unguarded site (routes.ts 448-451) happened exactly
because the callback was a code-200 success with no result URLs — that
write is unconditional on the observed status and does not abort the
poller; and every poll write happened under a non-terminal observation.
That — not the claim's exactly-once mutual exclusion — is the guarantee
the code gives: the guarded write does not skip on `FAILED`, and the
unguarded write skips on nothing, so a job can undergo two terminal
transitions even in serial traces (see the counterexample). -/
theorem C1_race_amended (cbCode : Nat) (cbMsg : Option String) (cbUrls : List String)
    (fetch : FetchOutcome) (attempts : Nat) (sched : List RaceLabel) (c : RaceConfig)
    (h : RaceWriteInv cbCode cbUrls c) :
    RaceWriteInv cbCode cbUrls (runRace cbCode cbMsg cbUrls fetch attempts sched c) := by
  induction sched generalizing c with
  | nil => exact h
  | cons l rest ih =>
    exact ih (raceStep cbCode cbMsg cbUrls fetch attempts c l)
      (raceStep_preserves_write_inv cbCode cbMsg cbUrls fetch attempts c l h)

/-- Claim C1, witness: the write discipline holds after a full interleaved
run — including the unguarded second webhook write step — from the initial
`PROCESSING` configuration. -/
theorem C1_witness :
    RaceWriteInv 200 ["url-1"]
      (runRace 200 none ["url-1"] (FetchOutcome.success ["url-1"] none none) 1
        [RaceLabel.wRead, RaceLabel.wWrite, RaceLabel.wWrite2,
         RaceLabel.pRead, RaceLabel.pWrite] raceInit) :=
  C1_race_amended 200 none ["url-1"] (FetchOutcome.success ["url-1"] none none) 1
    [RaceLabel.wRead, RaceLabel.wWrite, RaceLabel.wWrite2,
     RaceLabel.pRead, RaceLabel.pWrite] raceInit
    ⟨fun s hs => by simp [raceInit] at hs,
     fun hs => by simp [raceInit] at hs,
     fun s hs => by simp [raceInit] at hs⟩

/-! ### Claim C5 — invoice-level and event-level renewal dedup -/

/-- When the invoice id is already recorded as processed, the handler may
append the event id to the processed-event table but changes no balance,
no ledger entry and no processed-invoice record. -/
theorem stripe_dup_invoice_frame (envB envP envM : String) (now : Nat) (gtf : Bool)
    (e : StripeEventIn) (st : Storage)
    (hinv : st.processedInvoices.contains e.invoiceId = true) :
    (stripeInvoicePaymentSucceeded envB envP envM now gtf e st).1.users = st.users ∧
    (stripeInvoicePaymentSucceeded envB envP envM now gtf e st).1.ledger = st.ledger ∧
    (stripeInvoicePaymentSucceeded envB envP envM now gtf e st).1.processedInvoices
      = st.processedInvoices := by
  unfold stripeInvoicePaymentSucceeded
  by_cases h1 : getStripeEvent st e.id = true
  · rw [if_pos h1]
    exact ⟨rfl, rfl, rfl⟩
  · rw [if_neg h1]
    by_cases h2 : ¬(e.billingReason = "subscription_create"
        ∨ e.billingReason = "subscription_cycle") ∨ e.amountPaid ≤ 0
    · rw [if_pos h2]
      exact ⟨rfl, rfl, rfl⟩
    · rw [if_neg h2, if_pos (show getProcessedInvoice st e.invoiceId = true from hinv)]
      exact ⟨rfl, rfl, rfl⟩

/-- Claim C5: for a renewal event passing all guards, the grant transaction
writes the processed-invoice marker, the balance increment, the ledger
entry, the plan state and the processed-event record as one atomic update
(`applyRenewalGrant`), and a failing transaction changes nothing at all
(answering 500); replaying ANY event carrying the same invoice id — the
same or a different event id — grants nothing further: the balance shows a
single increment, the ledger a single renewal entry, and the
processed-invoice marker is written exactly once.  Events whose event id or
invoice id is already recorded change no balance, ledger or invoice
state. -/
theorem C5_invoice_dedup (envB envP envM : String) (now : Nat)
    (e1 e2 : StripeEventIn) (st : Storage) (customerId priceId plan : String)
    (credits : Int) (u : UserRec)
    (hev : st.stripeEvents.contains e1.id = false)
    (hreason : e1.billingReason = "subscription_create"
      ∨ e1.billingReason = "subscription_cycle")
    (hamt : 0 < e1.amountPaid)
    (hinv : st.processedInvoices.contains e1.invoiceId = false)
    (hcust : e1.customerId = some customerId)
    (hprice : e1.priceId = some priceId)
    (hplan : matchPlan envB envP envM priceId = some (plan, credits))
    (huser : st.users.find? (fun v => v.stripeCustomerId == some customerId) = some u)
    (hinv2 : e2.invoiceId = e1.invoiceId) :
    stripeInvoicePaymentSucceeded envB envP envM now true e1 st = (st, 500) ∧
    (stripeInvoicePaymentSucceeded envB envP envM now false e1 st).1
      = applyRenewalGrant st u.id credits plan
          (match e1.periodEnd with | some p => p * 1000 | none => now)
          e1.subscriptionId e1.invoiceId e1.id ∧
    getUserCreditsBalance
        (stripeInvoicePaymentSucceeded envB envP envM now false e2
          (stripeInvoicePaymentSucceeded envB envP envM now false e1 st).1).1 u.id
      = getUserCreditsBalance st u.id + credits ∧
    (stripeInvoicePaymentSucceeded envB envP envM now false e2
        (stripeInvoicePaymentSucceeded envB envP envM now false e1 st).1).1.ledger
      = st.ledger ++ [⟨u.id, credits, "stripe_" ++ plan ++ "_renewal", none⟩] ∧
    (stripeInvoicePaymentSucceeded envB envP envM now false e2
        (stripeInvoicePaymentSucceeded envB envP envM now false e1 st).1).1.processedInvoices
      = st.processedInvoices ++ [e1.invoiceId] ∧
    (∀ (e : StripeEventIn) (st2 : Storage), getStripeEvent st2 e.id = true →
      stripeInvoicePaymentSucceeded envB envP envM now false e st2 = (st2, 200)) := by
  have hamt2 : ¬ (e1.amountPaid ≤ 0) := not_le.mpr hamt
  have hcond : ¬ (¬(e1.billingReason = "subscription_create"
      ∨ e1.billingReason = "subscription_cycle") ∨ e1.amountPaid ≤ 0) :=
    fun hcon => hcon.elim (fun hna => hna hreason) (fun hle => hamt2 hle)
  have hgrant : ∀ gtf : Bool, stripeInvoicePaymentSucceeded envB envP envM now gtf e1 st
      = if gtf then (st, 500)
        else (applyRenewalGrant st u.id credits plan
            (match e1.periodEnd with | some p => p * 1000 | none => now)
            e1.subscriptionId e1.invoiceId e1.id, 200) := by
    intro gtf
    simp only [stripeInvoicePaymentSucceeded, getStripeEvent, getProcessedInvoice, hev, hinv,
      hcust, hprice, hplan, huser, Bool.false_eq_true, if_false]
    rw [if_neg hcond]
  have hfound : (st.users.find? (fun v => v.id == u.id)).isSome = true := by
    rw [List.find?_isSome]
    exact ⟨u, List.mem_of_find?_eq_some huser, by simp⟩
  obtain ⟨w, hfw⟩ := Option.isSome_iff_exists.mp hfound
  have hbal1 : getUserCreditsBalance
      (applyRenewalGrant st u.id credits plan
        (match e1.periodEnd with | some p => p * 1000 | none => now)
        e1.subscriptionId e1.invoiceId e1.id) u.id
      = getUserCreditsBalance st u.id + credits := by
    show (((st.users.map (fun v =>
        if v.id == u.id then
          { v with
            creditsRemaining :=
              ((st.users.find? (fun w2 => w2.id == u.id)).map
                (fun w2 => w2.creditsRemaining)).getD 0 + credits,
            activePlan := some plan,
            creditsRenewAt := some (match e1.periodEnd with | some p => p * 1000 | none => now),
            stripeSubscriptionId := e1.subscriptionId }
        else v)).find? (fun v => v.id == u.id)).map (fun v => v.creditsRemaining)).getD 0
      = getUserCreditsBalance st u.id + credits
    rw [find?_map_update (fun v : UserRec => v.id)
        (fun v =>
          { v with
            creditsRemaining :=
              ((st.users.find? (fun w2 => w2.id == u.id)).map
                (fun w2 => w2.creditsRemaining)).getD 0 + credits,
            activePlan := some plan,
            creditsRenewAt := some (match e1.periodEnd with | some p => p * 1000 | none => now),
            stripeSubscriptionId := e1.subscriptionId }) u.id (fun _ => rfl) st.users, hfw]
    simp [getUserCreditsBalance, hfw]
  have hmem : ((stripeInvoicePaymentSucceeded envB envP envM now false e1 st).1).processedInvoices.contains
      e2.invoiceId = true := by
    rw [hgrant false]
    show (st.processedInvoices ++ [e1.invoiceId]).contains e2.invoiceId = true
    rw [hinv2]
    exact contains_append_singleton st.processedInvoices e1.invoiceId
  have hframe := stripe_dup_invoice_frame envB envP envM now false e2
    (stripeInvoicePaymentSucceeded envB envP envM now false e1 st).1 hmem
  refine ⟨by rw [hgrant true]; exact rfl, by rw [hgrant false]; exact rfl, ?_, ?_, ?_, ?_⟩
  · show (((stripeInvoicePaymentSucceeded envB envP envM now false e2
        (stripeInvoicePaymentSucceeded envB envP envM now false e1 st).1).1.users.find?
          (fun v => v.id == u.id)).map (fun v => v.creditsRemaining)).getD 0
      = getUserCreditsBalance st u.id + credits
    rw [hframe.1, hgrant false]
    exact hbal1
  · rw [hframe.2.1, hgrant false]
    exact rfl
  · rw [hframe.2.2, hgrant false]
    exact rfl
  · intro e st2 h2
    unfold stripeInvoicePaymentSucceeded
    rw [if_pos h2]

/-- Claim C5, witness: a concrete renewal event grants once; the replay
with a fresh event id but the same invoice id grants nothing more, and the
processed-invoice marker is written exactly once. -/
theorem C5_witness :
    stripeInvoicePaymentSucceeded "pb" "pp" "pm" 7 true
        ⟨"ev1", "in1", "subscription_cycle", 497, some "cus1", some "pb", some "sub1", some 9⟩
        ⟨[⟨"u1", 2, some "cus1", none, none, none⟩], [], [], [], [], []⟩
      = (⟨[⟨"u1", 2, some "cus1", none, none, none⟩], [], [], [], [], []⟩, 500) ∧
    (stripeInvoicePaymentSucceeded "pb" "pp" "pm" 7 false
        ⟨"ev1", "in1", "subscription_cycle", 497, some "cus1", some "pb", some "sub1", some 9⟩
        ⟨[⟨"u1", 2, some "cus1", none, none, none⟩], [], [], [], [], []⟩).1
      = applyRenewalGrant
          ⟨[⟨"u1", 2, some "cus1", none, none, none⟩], [], [], [], [], []⟩
          "u1" 5 "basic"
          (match (some 9 : Option Nat) with | some p => p * 1000 | none => 7)
          (some "sub1") "in1" "ev1" ∧
    getUserCreditsBalance
        (stripeInvoicePaymentSucceeded "pb" "pp" "pm" 7 false
          ⟨"ev2", "in1", "subscription_cycle", 497, some "cus1", some "pb", some "sub1", some 9⟩
          (stripeInvoicePaymentSucceeded "pb" "pp" "pm" 7 false
            ⟨"ev1", "in1", "subscription_cycle", 497, some "cus1", some "pb", some "sub1", some 9⟩
            ⟨[⟨"u1", 2, some "cus1", none, none, none⟩], [], [], [], [], []⟩).1).1 "u1"
      = getUserCreditsBalance
          ⟨[⟨"u1", 2, some "cus1", none, none, none⟩], [], [], [], [], []⟩ "u1" + 5 ∧
    (stripeInvoicePaymentSucceeded "pb" "pp" "pm" 7 false
        ⟨"ev2", "in1", "subscription_cycle", 497, some "cus1", some "pb", some "sub1", some 9⟩
        (stripeInvoicePaymentSucceeded "pb" "pp" "pm" 7 false
          ⟨"ev1", "in1", "subscription_cycle", 497, some "cus1", some "pb", some "sub1", some 9⟩
          ⟨[⟨"u1", 2, some "cus1", none, none, none⟩], [], [], [], [], []⟩).1).1.ledger
      = [] ++ [⟨"u1", 5, "stripe_" ++ "basic" ++ "_renewal", none⟩] ∧
    (stripeInvoicePaymentSucceeded "pb" "pp" "pm" 7 false
        ⟨"ev2", "in1", "subscription_cycle", 497, some "cus1", some "pb", some "sub1", some 9⟩
        (stripeInvoicePaymentSucceeded "pb" "pp" "pm" 7 false
          ⟨"ev1", "in1", "subscription_cycle", 497, some "cus1", some "pb", some "sub1", some 9⟩
          ⟨[⟨"u1", 2, some "cus1", none, none, none⟩], [], [], [], [], []⟩).1).1.processedInvoices
      = [] ++ ["in1"] ∧
    (∀ (e : StripeEventIn) (st2 : Storage), getStripeEvent st2 e.id = true →
      stripeInvoicePaymentSucceeded "pb" "pp" "pm" 7 false e st2 = (st2, 200)) :=
  C5_invoice_dedup "pb" "pp" "pm" 7
    ⟨"ev1", "in1", "subscription_cycle", 497, some "cus1", some "pb", some "sub1", some 9⟩
    ⟨"ev2", "in1", "subscription_cycle", 497, some "cus1", some "pb", some "sub1", some 9⟩
    ⟨[⟨"u1", 2, some "cus1", none, none, none⟩], [], [], [], [], []⟩
    "cus1" "pb" "basic" 5 ⟨"u1", 2, some "cus1", none, none, none⟩
    (by decide) (by decide) (by decide) (by decide) (by decide) (by decide)
    (by decide) (by decide) (by decide)

end NovaFilm
